import Mathlib

/-!
Verification of `packages/agent-python/agent.py` (LiveKit voice agent with
MCP support), shallowly embedded in Lean 4.

The script's observable behaviour is modelled as a pure function from its
explicit inputs (prompt-file content, the `MCP_SERVER_URL` environment
variable, the job context's room name, and the success/failure outcomes of
the two awaited framework calls) to a trace of events together with the
constructed agent and session objects.

Module-level initialisation (`SYSTEM_PROMPT = load_system_prompt()`,
line 35 of the source) happens once per process, before any handler
invocation; this is modelled by `runProcess`, which performs the one file
read and then maps `entrypoint` over the per-job inputs.
-/

namespace Paseo

/-- The `AutoSubscribe` enum from `livekit.agents`; the script only ever uses
`AUDIO_ONLY` (line 57). -/
inductive AutoSubscribe where
  | AUDIO_ONLY
  | SUBSCRIBE_ALL
  | SUBSCRIBE_NONE
  | VIDEO_ONLY
deriving DecidableEq, Repr

/-- Descriptor `MCPServerHTTP(url=..., timeout=...)` (lines 48-51). -/
structure MCPServerHTTP where
  url : String
  timeout : Nat
deriving DecidableEq, Repr

/-- The `voice.Agent(instructions=..., mcp_servers=...)` object (lines 60-63). -/
structure Agent where
  instructions : String
  mcp_servers : List MCPServerHTTP
deriving DecidableEq, Repr

/-- The `voice.AgentSession(stt=..., llm=..., tts=...)` object (lines 67-71). -/
structure AgentSession where
  stt : String
  llm : String
  tts : String
deriving DecidableEq, Repr

/-- Observable events of one handler invocation, in program order: each
`print` site is its own constructor carrying the dynamic payload, and the
two awaited framework calls and the two constructor calls are recorded as
events as well. -/
inductive Event where
  | logMcpConfigured (url : String)
  | logNoMcp
  | connect (mode : AutoSubscribe)
  | mkAgent (a : Agent)
  | mkSession (s : AgentSession)
  | sessionStart (a : Agent) (room : String)
  | logStarted (room : String)
  | logServerCount (n : Nat)
deriving DecidableEq, Repr

/-- The exact console line an event prints, if it is a print site
(f-strings of lines 47, 54, 76, 77 of the source). -/
def Event.logLine : Event → Option String
  | .logMcpConfigured u => some ("✓ MCP Server configured: " ++ u)
  | .logNoMcp => some "⚠ No MCP_SERVER_URL found in environment"
  | .logStarted r => some ("✓ Agent started successfully in room: " ++ r)
  | .logServerCount n => some ("✓ MCP servers: " ++ toString n ++ " configured")
  | _ => none

/-- The console output of a trace: the printed lines, in order. -/
def logLines (t : List Event) : List String :=
  t.filterMap Event.logLine

/-- Python truthiness of `os.getenv` results: `None` and `""` are falsy,
every other string is truthy (the `if mcp_server_url:` test, line 46). -/
def pyTruthy : Option String → Bool
  | none => false
  | some s => !(s == "")

/-- The `mcp_servers` list built by lines 45-52: starts `[]`, and if the
environment value is truthy exactly one `MCPServerHTTP` with `timeout=10`
is appended. -/
def mkMcpServers (mcp_server_url : Option String) : List MCPServerHTTP :=
  if pyTruthy mcp_server_url then
    [{ url := mcp_server_url.getD "", timeout := 10 }]
  else
    []

/-- Explicit inputs of one `entrypoint(ctx)` invocation: the environment
variable, the outcomes of the two awaited calls, the room name exposed by
the job context, and the prompt file's content at invocation time (which
the handler never reads — it is carried to state claims about caching). -/
structure JobInput where
  mcpServerUrl : Option String
  connectOk : Bool
  startOk : Bool
  roomName : String
  fileNow : String
deriving DecidableEq, Repr

/-- Result of one handler invocation: the event trace, the agent and
session objects constructed (if control reached their construction), and
whether the handler returned normally (`ok = false` means an awaited call
raised and the error propagated — the script has no try/except). -/
structure RunResult where
  trace : List Event
  agent : Option Agent
  session : Option AgentSession
  ok : Bool
deriving DecidableEq, Repr

/-- The handler `entrypoint(ctx)` (lines 38-77), as a function of the module-level
`SYSTEM_PROMPT` value and the job's explicit inputs.  Order mirrors the
source: env check and optional descriptor construction with its log line
(42-54), awaited `ctx.connect(auto_subscribe=AUDIO_ONLY)` (57),
`voice.Agent` construction (60-63), `voice.AgentSession` construction
(67-71), awaited `session.start` (74), then the two confirmation prints
(76-77).  A failed await stops the trace at that point. -/
def entrypoint (SYSTEM_PROMPT : String) (job : JobInput) : RunResult :=
  let mcp_server_url := job.mcpServerUrl
  let mcp_servers := mkMcpServers mcp_server_url
  let envEvent :=
    if pyTruthy mcp_server_url then
      Event.logMcpConfigured (mcp_server_url.getD "")
    else
      Event.logNoMcp
  let t0 := [envEvent, Event.connect AutoSubscribe.AUDIO_ONLY]
  if job.connectOk = false then
    { trace := t0, agent := none, session := none, ok := false }
  else
    let agent : Agent :=
      { instructions := SYSTEM_PROMPT, mcp_servers := mcp_servers }
    let session : AgentSession :=
      { stt := "assemblyai/universal-streaming:en"
        llm := "openai/gpt-4.1-mini"
        tts := "cartesia/sonic-2:9626c31c-bec5-4cca-baa8-f8ba9e84c8bc" }
    let t1 := t0 ++
      [Event.mkAgent agent, Event.mkSession session,
       Event.sessionStart agent job.roomName]
    if job.startOk = false then
      { trace := t1, agent := some agent, session := some session, ok := false }
    else
      { trace := t1 ++
          [Event.logStarted job.roomName,
           Event.logServerCount mcp_servers.length],
        agent := some agent, session := some session, ok := true }

/-- Function `load_system_prompt()` (lines 28-31): `Path.read_text()` returns the
file's full content decoded as text; the file-system is modelled by the
content the read yields. -/
def load_system_prompt (fileContent : String) : String :=
  fileContent

/-- One process lifetime: the prompt file's content at module-import time
(`none` = missing/unreadable, so `Path.read_text()` raises), and the
inputs of each handler invocation the hosting worker makes. -/
structure ProcessInput where
  fileAtLoad : Option String
  jobs : List JobInput
deriving DecidableEq, Repr

/-- A whole process: module import evaluates
`SYSTEM_PROMPT = load_system_prompt()` (line 35) exactly once; if the read
raises, the import fails and no handler ever runs (`none`); otherwise
every job invokes `entrypoint` with the one cached prompt string. -/
def runProcess (p : ProcessInput) : Option (List RunResult) :=
  match p.fileAtLoad with
  | none => none
  | some c => some (p.jobs.map (entrypoint (load_system_prompt c)))

/-- All events of a process, in order (empty when import failed). -/
def processEvents (p : ProcessInput) : List Event :=
  (((runProcess p).getD []).map RunResult.trace).flatten

/-- Is this event the awaited `ctx.connect` call? -/
def Event.isConnectCall : Event → Bool
  | .connect _ => true
  | _ => false

/-- Is this event the awaited `session.start` call? -/
def Event.isStartCall : Event → Bool
  | .sessionStart _ _ => true
  | _ => false

/-- Is this event the `voice.Agent` construction? -/
def Event.isAgentCtor : Event → Bool
  | .mkAgent _ => true
  | _ => false

/-- Is this event the `voice.AgentSession` construction? -/
def Event.isSessionCtor : Event → Bool
  | .mkSession _ => true
  | _ => false

/-- Is this event the environment check's log line (either branch)? -/
def Event.isEnvLog : Event → Bool
  | .logMcpConfigured _ => true
  | .logNoMcp => true
  | _ => false

/-- Is this event one of the two post-start confirmation prints? -/
def Event.isConfirmLog : Event → Bool
  | .logStarted _ => true
  | .logServerCount _ => true
  | _ => false

/-- Is this event the success-branch log line of the environment check? -/
def Event.isMcpConfiguredLog : Event → Bool
  | .logMcpConfigured _ => true
  | _ => false

/-- No event of the trace satisfies `p`. -/
def noEvent (p : Event → Bool) (t : List Event) : Bool :=
  t.all (fun e => !(p e))

/-- Every `p`-event of the trace occurs strictly before every `q`-event:
once a `q`-event is reached, neither it nor anything after it is a
`p`-event. -/
def eventsBefore (p q : Event → Bool) : List Event → Bool
  | [] => true
  | e :: rest =>
      (if q e then !(p e) && noEvent p rest else true)
      && eventsBefore p q rest

/-- Concrete process used as evidence for the caching claims: the prompt
file holds one text at module load and a different text at the (single)
job's invocation time. -/
def procC1 : ProcessInput :=
  { fileAtLoad := some "You are helpful."
    jobs := [{ mcpServerUrl := none, connectOk := true, startOk := true,
               roomName := "room1", fileNow := "You are concise." }] }

/-- Result of the single job of `procC1`. -/
def resC1 : RunResult :=
  entrypoint (load_system_prompt "You are helpful.")
    { mcpServerUrl := none, connectOk := true, startOk := true,
      roomName := "room1", fileNow := "You are concise." }

/-- Agent constructed in the single job of `procC1`. -/
def agC1 : Agent :=
  { instructions := "You are helpful.", mcp_servers := [] }

/-- Agents only come out of `entrypoint` carrying the module-level
`SYSTEM_PROMPT` as instructions and the env-derived server list. -/
theorem entrypoint_agent_eq (S : String) (job : JobInput) (a : Agent)
    (h : (entrypoint S job).agent = some a) :
    a = { instructions := S, mcp_servers := mkMcpServers job.mcpServerUrl } := by
  unfold entrypoint at h
  by_cases hc : job.connectOk = false
  · simp [hc] at h
  · simp [hc] at h
    by_cases hs : job.startOk = false
    · simp [hs] at h
      exact h.symm
    · simp [hs] at h
      exact h.symm

/-- C3: when `MCP_SERVER_URL` is set to a non-empty string `u`, the
tool-server list passed to the agent constructor is exactly
`[MCPServerHTTP(url=u, timeout=10)]` (length 1), the handler's first
event is the confirmation log for `u` (printed as the confirmation
line), and the constructed agent carries that one-element list. -/
theorem C3_mcp_url_set (S u : String) (job : JobInput)
    (hu : job.mcpServerUrl = some u) (hne : u ≠ "")
    (hc : job.connectOk = true) :
    mkMcpServers job.mcpServerUrl = [{ url := u, timeout := 10 }]
    ∧ (entrypoint S job).trace.head? = some (Event.logMcpConfigured u)
    ∧ (logLines (entrypoint S job).trace).head? =
        some ("✓ MCP Server configured: " ++ u)
    ∧ (entrypoint S job).agent =
        some { instructions := S,
               mcp_servers := [{ url := u, timeout := 10 }] } := by
  have ht : pyTruthy (some u) = true := by simp [pyTruthy, hne]
  have hm : mkMcpServers (some u) = [{ url := u, timeout := 10 }] := by
    simp [mkMcpServers, ht]
  refine ⟨by rw [hu]; exact hm, ?_, ?_, ?_⟩ <;>
    · by_cases hs : job.startOk = false <;>
        simp [entrypoint, hu, ht, hm, hc, hs, logLines, Event.logLine]

/-- Witness for C3 at `u = "https://example.com/mcp"`. -/
theorem C3_witness :
    ({ mcpServerUrl := some "https://example.com/mcp", connectOk := true,
       startOk := true, roomName := "room1",
       fileNow := "p" } : JobInput).mcpServerUrl = some "https://example.com/mcp"
    ∧ "https://example.com/mcp" ≠ ""
    ∧ (mkMcpServers (some "https://example.com/mcp") =
         [{ url := "https://example.com/mcp", timeout := 10 }]
       ∧ (entrypoint "p"
            { mcpServerUrl := some "https://example.com/mcp", connectOk := true,
              startOk := true, roomName := "room1",
              fileNow := "p" }).trace.head? =
           some (Event.logMcpConfigured "https://example.com/mcp")
       ∧ (logLines (entrypoint "p"
            { mcpServerUrl := some "https://example.com/mcp", connectOk := true,
              startOk := true, roomName := "room1",
              fileNow := "p" }).trace).head? =
           some ("✓ MCP Server configured: " ++ "https://example.com/mcp")
       ∧ (entrypoint "p"
            { mcpServerUrl := some "https://example.com/mcp", connectOk := true,
              startOk := true, roomName := "room1",
              fileNow := "p" }).agent =
           some { instructions := "p",
                  mcp_servers :=
                    [{ url := "https://example.com/mcp", timeout := 10 }] }) :=
  ⟨rfl, by decide,
   C3_mcp_url_set "p" "https://example.com/mcp"
     { mcpServerUrl := some "https://example.com/mcp", connectOk := true,
       startOk := true, roomName := "room1", fileNow := "p" }
     rfl (by decide) rfl⟩

/-- C4: when `MCP_SERVER_URL` is unset or the empty string, the
tool-server list is empty, the handler's first event is the warning log
(printed as the warning line), and the constructed agent carries an empty
list. -/
theorem C4_mcp_url_absent (S : String) (job : JobInput)
    (hu : job.mcpServerUrl = none ∨ job.mcpServerUrl = some "")
    (hc : job.connectOk = true) :
    mkMcpServers job.mcpServerUrl = []
    ∧ (entrypoint S job).trace.head? = some Event.logNoMcp
    ∧ (logLines (entrypoint S job).trace).head? =
        some "⚠ No MCP_SERVER_URL found in environment"
    ∧ (entrypoint S job).agent =
        some { instructions := S, mcp_servers := [] } := by
  have ht : pyTruthy job.mcpServerUrl = false := by
    rcases hu with h | h <;> rw [h] <;> simp [pyTruthy]
  have hm : mkMcpServers job.mcpServerUrl = [] := by
    rw [mkMcpServers, ht]; simp
  refine ⟨hm, ?_, ?_, ?_⟩ <;>
    · by_cases hs : job.startOk = false <;>
        simp [entrypoint, ht, hm, hc, hs, logLines, Event.logLine]

/-- Witness for C4 with the variable unset. -/
theorem C4_witness :
    (({ mcpServerUrl := none, connectOk := true, startOk := true,
        roomName := "room1", fileNow := "p" } : JobInput).mcpServerUrl = none
     ∨ ({ mcpServerUrl := none, connectOk := true, startOk := true,
          roomName := "room1", fileNow := "p" } : JobInput).mcpServerUrl =
        some "")
    ∧ (mkMcpServers none = []
       ∧ (entrypoint "p"
            { mcpServerUrl := none, connectOk := true, startOk := true,
              roomName := "room1", fileNow := "p" }).trace.head? =
           some Event.logNoMcp
       ∧ (logLines (entrypoint "p"
            { mcpServerUrl := none, connectOk := true, startOk := true,
              roomName := "room1", fileNow := "p" }).trace).head? =
           some "⚠ No MCP_SERVER_URL found in environment"
       ∧ (entrypoint "p"
            { mcpServerUrl := none, connectOk := true, startOk := true,
              roomName := "room1", fileNow := "p" }).agent =
           some { instructions := "p", mcp_servers := [] }) :=
  ⟨Or.inl rfl,
   C4_mcp_url_absent "p"
     { mcpServerUrl := none, connectOk := true, startOk := true,
       roomName := "room1", fileNow := "p" }
     (Or.inl rfl) rfl⟩

/-- C5: whenever the session object is constructed, it is built with
exactly the three fixed provider-selector strings, regardless of the
prompt content and the environment. -/
theorem C5_fixed_providers (S : String) (job : JobInput) :
    (entrypoint S job).session = none
    ∨ (entrypoint S job).session =
        some { stt := "assemblyai/universal-streaming:en"
               llm := "openai/gpt-4.1-mini"
               tts := "cartesia/sonic-2:9626c31c-bec5-4cca-baa8-f8ba9e84c8bc" } := by
  unfold entrypoint
  by_cases hc : job.connectOk = false
  · simp [hc]
  · by_cases hs : job.startOk = false <;> simp [hc, hs]

/-- C6: the tool-server list never holds more than one element — neither
the list built from the environment variable (for any value), nor the
list the constructed agent ends up carrying. -/
theorem C6_at_most_one_server (v : Option String) (S : String)
    (job : JobInput) :
    (mkMcpServers v).length ≤ 1
    ∧ (((entrypoint S job).agent.elim ([] : List MCPServerHTTP)
          Agent.mcp_servers).length ≤ 1) := by
  constructor
  · rw [mkMcpServers]
    by_cases h : pyTruthy v = true <;> simp [h]
  · rcases ha : (entrypoint S job).agent with _ | a
    · simp [Option.elim]
    · have := entrypoint_agent_eq S job a ha
      subst this
      simp [Option.elim, mkMcpServers]
      by_cases h : pyTruthy job.mcpServerUrl = true <;> simp [h]

/-- C10: setting `MCP_SERVER_URL` to the empty string is observationally
identical to leaving it unset: the whole handler result is equal in the
two cases, the warning event (whose printed line is
`⚠ No MCP_SERVER_URL found in environment`) is the first event, the
success-branch confirmation is never logged, and no tool-server
descriptor is built in either case. -/
theorem C10_empty_equals_unset (S : String) (c st : Bool) (r f : String) :
    entrypoint S { mcpServerUrl := some "", connectOk := c, startOk := st,
                   roomName := r, fileNow := f }
      = entrypoint S { mcpServerUrl := none, connectOk := c, startOk := st,
                       roomName := r, fileNow := f }
    ∧ (entrypoint S { mcpServerUrl := some "", connectOk := c, startOk := st,
                      roomName := r, fileNow := f }).trace.head? =
        some Event.logNoMcp
    ∧ Event.logLine Event.logNoMcp =
        some "⚠ No MCP_SERVER_URL found in environment"
    ∧ noEvent Event.isMcpConfiguredLog
        (entrypoint S { mcpServerUrl := some "", connectOk := c, startOk := st,
                        roomName := r, fileNow := f }).trace = true
    ∧ mkMcpServers (some "") = []
    ∧ mkMcpServers none = [] := by
  cases c <;> cases st <;>
    refine ⟨rfl, ?_, rfl, ?_, by decide, by decide⟩ <;>
      simp [entrypoint, pyTruthy, mkMcpServers, noEvent,
            Event.isMcpConfiguredLog]

/-- C7: in every handler execution the events come in the fixed order —
environment-check log, then the `ctx.connect` call, then the
`voice.Agent` construction, then the `voice.AgentSession` construction,
then the `session.start` call, and the confirmation log lines only after
the `session.start` call. -/
theorem C7_event_order (S : String) (job : JobInput) :
    eventsBefore Event.isEnvLog Event.isConnectCall
      (entrypoint S job).trace = true
    ∧ eventsBefore Event.isConnectCall Event.isAgentCtor
        (entrypoint S job).trace = true
    ∧ eventsBefore Event.isAgentCtor Event.isSessionCtor
        (entrypoint S job).trace = true
    ∧ eventsBefore Event.isSessionCtor Event.isStartCall
        (entrypoint S job).trace = true
    ∧ eventsBefore Event.isStartCall Event.isConfirmLog
        (entrypoint S job).trace = true := by
  cases hb : pyTruthy job.mcpServerUrl <;>
    by_cases hc : job.connectOk = false <;>
      by_cases hs : job.startOk = false <;>
        simp [entrypoint, hb, hc, hs, eventsBefore, noEvent,
              Event.isEnvLog, Event.isConnectCall, Event.isAgentCtor,
              Event.isSessionCtor, Event.isStartCall, Event.isConfirmLog]

/-- C8: the handler returns normally exactly when both awaited framework
calls succeed (errors propagate, there is no recovery), and when the
`ctx.connect` call fails no agent or session is constructed, the
`session.start` call never happens and no confirmation line is logged. -/
theorem C8_no_recovery (S : String) (job : JobInput) :
    (entrypoint S job).ok = (job.connectOk && job.startOk)
    ∧ (entrypoint S { job with connectOk := false }).agent = none
    ∧ (entrypoint S { job with connectOk := false }).session = none
    ∧ noEvent Event.isStartCall
        (entrypoint S { job with connectOk := false }).trace = true
    ∧ noEvent Event.isConfirmLog
        (entrypoint S { job with connectOk := false }).trace = true
    ∧ (entrypoint S { job with connectOk := false }).ok = false := by
  cases hb : pyTruthy job.mcpServerUrl <;>
    by_cases hc : job.connectOk = false <;>
      by_cases hs : job.startOk = false <;>
        simp_all [entrypoint, noEvent,
                  Event.isStartCall, Event.isConfirmLog]

/-- C9 counterexample: two runs with the same prompt-file content and the
same (absent) `MCP_SERVER_URL` but different room names print different
log-line sequences, so the handler is not deterministic in those two
inputs alone. -/
theorem C9_counterexample :
    (({ mcpServerUrl := none, connectOk := true, startOk := true,
        roomName := "alpha", fileNow := "p" } : JobInput).mcpServerUrl =
       ({ mcpServerUrl := none, connectOk := true, startOk := true,
          roomName := "beta", fileNow := "p" } : JobInput).mcpServerUrl)
    ∧ logLines (entrypoint "p"
          { mcpServerUrl := none, connectOk := true, startOk := true,
            roomName := "alpha", fileNow := "p" }).trace ≠
        logLines (entrypoint "p"
          { mcpServerUrl := none, connectOk := true, startOk := true,
            roomName := "beta", fileNow := "p" }).trace := by
  constructor
  · rfl
  · simp [entrypoint, logLines, Event.logLine, pyTruthy, mkMcpServers,
          noEvent]

/-- C9 (amended): the handler is deterministic in its explicit inputs
once the job context's room name and the outcomes of the two awaited
calls are counted among them: runs agreeing on prompt content,
`MCP_SERVER_URL`, room name and call outcomes produce identical results
(trace, agent, session); in particular the result never depends on the
prompt file's content at invocation time. -/
theorem C9_deterministic (S : String) (u : Option String) (c st : Bool)
    (r f1 f2 : String) :
    entrypoint S { mcpServerUrl := u, connectOk := c, startOk := st,
                   roomName := r, fileNow := f1 }
      = entrypoint S { mcpServerUrl := u, connectOk := c, startOk := st,
                       roomName := r, fileNow := f2 } := rfl

/-- C1 counterexample: in a process whose prompt file holds
`"You are helpful."` at module load and `"You are concise."` at the
job's invocation time, the agent's instructions are the load-time text,
not the invocation-time text — the read is cached, not repeated per
job. -/
theorem C1_counterexample :
    ((runProcess procC1).getD []).map (fun r => r.agent.map Agent.instructions)
      = [some "You are helpful."]
    ∧ (procC1.jobs.map JobInput.fileNow = ["You are concise."])
    ∧ some "You are helpful." ≠ some "You are concise." := by
  refine ⟨?_, rfl, by decide⟩
  simp [procC1, runProcess, load_system_prompt, entrypoint, pyTruthy,
        mkMcpServers]

/-- C1 (amended): the prompt file is read once, at module import; every
handler invocation of the process binds that one load-time string as the
agent's instructions, regardless of the file's content at invocation
time. -/
theorem C1_prompt_cached (p : ProcessInput) (c : String) (r : RunResult)
    (a : Agent) (hp : p.fileAtLoad = some c)
    (hr : r ∈ (runProcess p).getD []) (ha : r.agent = some a) :
    a.instructions = load_system_prompt c := by
  rw [runProcess, hp] at hr
  simp at hr
  rcases hr with ⟨j, _, rfl⟩
  have := entrypoint_agent_eq (load_system_prompt c) j a ha
  rw [this]

/-- Witness for C1's amended theorem on the concrete process `procC1`. -/
theorem C1_witness :
    procC1.fileAtLoad = some "You are helpful."
    ∧ resC1 ∈ (runProcess procC1).getD []
    ∧ resC1.agent = some agC1
    ∧ agC1.instructions = load_system_prompt "You are helpful." :=
  ⟨rfl, by decide, by decide,
   C1_prompt_cached procC1 "You are helpful." resC1 agC1 rfl (by decide)
     (by decide)⟩

/-- C2: when the prompt file is missing or unreadable at module import,
the import raises and no handler ever runs: the process shows no events
at all — in particular no `ctx.connect` call — and no run constructs an
agent or a session. -/
theorem C2_missing_prompt (p : ProcessInput) (hp : p.fileAtLoad = none) :
    runProcess p = none
    ∧ processEvents p = []
    ∧ noEvent Event.isConnectCall (processEvents p) = true
    ∧ ((runProcess p).getD []).all
        (fun r => r.agent.isNone && r.session.isNone) = true := by
  rw [runProcess, hp]
  refine ⟨rfl, ?_, ?_, rfl⟩ <;> simp [processEvents, runProcess, hp, noEvent]

/-- Witness for C2 on a process with one pending job and no readable
prompt file. -/
theorem C2_witness :
    ({ fileAtLoad := none,
       jobs := [{ mcpServerUrl := none, connectOk := true, startOk := true,
                  roomName := "room1", fileNow := "p" }] } :
        ProcessInput).fileAtLoad = none
    ∧ (runProcess
         { fileAtLoad := none,
           jobs := [{ mcpServerUrl := none, connectOk := true,
                      startOk := true, roomName := "room1",
                      fileNow := "p" }] } = none
       ∧ processEvents
           { fileAtLoad := none,
             jobs := [{ mcpServerUrl := none, connectOk := true,
                        startOk := true, roomName := "room1",
                        fileNow := "p" }] } = []
       ∧ noEvent Event.isConnectCall
           (processEvents
             { fileAtLoad := none,
               jobs := [{ mcpServerUrl := none, connectOk := true,
                          startOk := true, roomName := "room1",
                          fileNow := "p" }] }) = true
       ∧ ((runProcess
             { fileAtLoad := none,
               jobs := [{ mcpServerUrl := none, connectOk := true,
                          startOk := true, roomName := "room1",
                          fileNow := "p" }] }).getD []).all
           (fun r => r.agent.isNone && r.session.isNone) = true) :=
  ⟨rfl,
   C2_missing_prompt
     { fileAtLoad := none,
       jobs := [{ mcpServerUrl := none, connectOk := true, startOk := true,
                  roomName := "room1", fileNow := "p" }] }
     rfl⟩

end Paseo
